import Mathlib

/-!
Verification of the match discovery and ranking engine
(`app/services/matching_service.py`) against its design specification.

The engine is embedded shallowly: Python `Optional` fields become `Option`,
float arithmetic is idealised as exact real arithmetic, enum values are the
strings the code compares (`.value`), and `datetime.utcnow()` becomes an
explicit `now` parameter (seconds since the epoch).  Python truthiness
(`if field:`) is modelled precisely: `None`, `0`, `0.0`, `""` and `[]` are
falsy, enum members and datetimes are truthy whenever present.
-/

noncomputable section
open Classical Real

/-- A profile record, restricted to the fields the matching engine reads.
Enum-valued fields hold the enum's `.value` string. -/
structure Profile where
  age : Option ℤ := none
  gender : Option String := none
  latitude : Option ℝ := none
  longitude : Option ℝ := none
  education_level : Option String := none
  field_of_study : Option String := none
  drinking_habit : Option String := none
  smoking_habit : Option String := none
  children_status : Option String := none
  religion : Option String := none
  values : Option (List String) := none
  personality_type : Option String := none
  lifestyle_preference : Option String := none
  hobbies : Option (List String) := none
  preferred_age_min : Option ℤ := none
  preferred_age_max : Option ℤ := none
  preferred_genders : Option (List String) := none
  max_distance_km : Option ℤ := none
  deal_breakers : Option (List String) := none
  must_haves : Option (List String) := none
  profile_completion_percentage : Option ℤ := none
  last_active_at : Option ℝ := none
  is_verified : Bool := false
  match_score_weight_preferences : Option (List (String × ℝ)) := none

/-- Python truthiness of an `Optional[int]`: `None` and `0` are falsy. -/
def truthyI : Option ℤ → Prop
  | none => False
  | some n => n ≠ 0

/-- Python truthiness of an `Optional[float]`: `None` and `0.0` are falsy. -/
def truthyR : Option ℝ → Prop
  | none => False
  | some x => x ≠ 0

/-- Python truthiness of an optional plain string: `None` and `""` are falsy. -/
def truthyS : Option String → Prop
  | none => False
  | some s => s ≠ ""

/-- Python truthiness of an optional list: `None` and `[]` are falsy. -/
def truthyL {α : Type} : Option (List α) → Prop
  | none => False
  | some l => l ≠ []

/-- Python truthiness of an optional enum member or datetime: truthy iff present. -/
def truthyE {α : Type} : Option α → Prop
  | none => False
  | some _ => True

/-- `math.atan2`, case split from the C convention the Python runtime follows. -/
def atan2 (y x : ℝ) : ℝ :=
  if 0 < x then arctan (y / x)
  else if x < 0 ∧ 0 ≤ y then arctan (y / x) + π
  else if x < 0 then arctan (y / x) - π
  else if 0 < y then π / 2
  else if y < 0 then -(π / 2)
  else 0

/-- `math.radians`: degrees to radians. -/
def radians (x : ℝ) : ℝ := x * π / 180

/-- `MatchingService._calculate_distance`: Haversine distance in km,
Earth radius 6371. -/
def calculate_distance (lat1 lon1 lat2 lon2 : ℝ) : ℝ :=
  let R : ℝ := 6371
  let dlat := radians (lat2 - lat1)
  let dlon := radians (lon2 - lon1)
  let a := Real.sin (dlat / 2) * Real.sin (dlat / 2) +
    Real.cos (radians lat1) * Real.cos (radians lat2) *
    (Real.sin (dlon / 2) * Real.sin (dlon / 2))
  let c := 2 * atan2 (Real.sqrt a) (Real.sqrt (1 - a))
  R * c

/-- `MatchingService._score_age_compatibility`. -/
def score_age_compatibility (user_profile match_profile : Profile) : ℝ :=
  if ¬ truthyI user_profile.age ∨ ¬ truthyI match_profile.age then 0.5
  else
    let age_diff : ℤ := |user_profile.age.getD 0 - match_profile.age.getD 0|
    if age_diff = 0 then 1.0
    else if age_diff ≤ 2 then 0.9
    else if age_diff ≤ 5 then 0.7
    else if age_diff ≤ 10 then 0.5
    else 0.3

/-- `MatchingService._score_distance`.  The guard is `not all([...])` over the
four coordinates, so a zero coordinate also yields the neutral 0.5. -/
def score_distance (user_profile match_profile : Profile) : ℝ :=
  if ¬ (truthyR user_profile.latitude ∧ truthyR user_profile.longitude ∧
        truthyR match_profile.latitude ∧ truthyR match_profile.longitude) then 0.5
  else
    let distance_km := calculate_distance (user_profile.latitude.getD 0)
      (user_profile.longitude.getD 0) (match_profile.latitude.getD 0)
      (match_profile.longitude.getD 0)
    -- max_distance = user_profile.max_distance_km or 100
    let max_distance : ℝ :=
      if truthyI user_profile.max_distance_km
      then ((user_profile.max_distance_km.getD 0 : ℤ) : ℝ) else 100
    if distance_km = 0 then 1.0
    else if distance_km / max_distance ≥ 1.0 then 0.1
    else if distance_km / max_distance ≥ 0.5 then 0.5
    else 1.0 - distance_km / max_distance * 0.5

/-- `MatchingService._score_interests`: Jaccard similarity with a 0.3
short-circuit when either list is empty. -/
def score_interests (user_interests match_interests : List String) : ℝ :=
  if user_interests = [] ∨ match_interests = [] then 0.3
  else
    let set_user := user_interests.toFinset
    let set_match := match_interests.toFinset
    let inter := (set_user ∩ set_match).card
    let uni := (set_user ∪ set_match).card
    if uni = 0 then 0.0
    else (inter : ℝ) / (uni : ℝ)

/-- `MatchingService._score_values`: average of up to three sub-factors. -/
def score_values (user_profile match_profile : Profile) : ℝ :=
  let c1 := truthyE user_profile.religion ∧ truthyE match_profile.religion
  let s1 : ℝ := if c1 ∧ user_profile.religion = match_profile.religion then 1.0 else 0
  let f1 : ℝ := if c1 then 1 else 0
  let c2 := truthyE user_profile.children_status ∧ truthyE match_profile.children_status
  let s2 : ℝ :=
    if c2 ∧ user_profile.children_status = match_profile.children_status then 1.0 else 0
  let f2 : ℝ := if c2 then 1 else 0
  let c3 := truthyL user_profile.values ∧ truthyL match_profile.values
  let s3 : ℝ :=
    if c3 then score_interests (user_profile.values.getD []) (match_profile.values.getD [])
    else 0
  let f3 : ℝ := if c3 then 1 else 0
  if f1 + f2 + f3 = 0 then 0.5 else (s1 + s2 + s3) / (f1 + f2 + f3)

/-- `MatchingService._drinking_level`: ordinal level of a drinking habit,
defaulting to 2 for unrecognized values. -/
def drinking_level (habit : String) : ℤ :=
  if habit = "never" then 0
  else if habit = "occasionally" then 1
  else if habit = "social_drinker" then 2
  else if habit = "regularly" then 3
  else if habit = "heavily" then 4
  else 2

/-- `MatchingService._score_lifestyle`: average of up to three sub-factors;
drinking habits one ordinal level apart credit 0.7. -/
def score_lifestyle (user_profile match_profile : Profile) : ℝ :=
  let c1 := truthyE user_profile.drinking_habit ∧ truthyE match_profile.drinking_habit
  let s1 : ℝ :=
    if c1 ∧ user_profile.drinking_habit = match_profile.drinking_habit then 1.0
    else if c1 ∧ |drinking_level (user_profile.drinking_habit.getD "") -
      drinking_level (match_profile.drinking_habit.getD "")| ≤ 1 then 0.7
    else 0
  let f1 : ℝ := if c1 then 1 else 0
  let c2 := truthyE user_profile.smoking_habit ∧ truthyE match_profile.smoking_habit
  let s2 : ℝ :=
    if c2 ∧ user_profile.smoking_habit = match_profile.smoking_habit then 1.0 else 0
  let f2 : ℝ := if c2 then 1 else 0
  let c3 := truthyE user_profile.lifestyle_preference ∧
    truthyE match_profile.lifestyle_preference
  let s3 : ℝ :=
    if c3 ∧ user_profile.lifestyle_preference = match_profile.lifestyle_preference
    then 1.0 else 0
  let f3 : ℝ := if c3 then 1 else 0
  if f1 + f2 + f3 = 0 then 0.5 else (s1 + s2 + s3) / (f1 + f2 + f3)

/-- `MatchingService._score_personality`. -/
def score_personality (user_profile match_profile : Profile) : ℝ :=
  if truthyE user_profile.personality_type ∧ truthyE match_profile.personality_type then
    if user_profile.personality_type = match_profile.personality_type then 0.8 else 0.6
  else 0.5

/-- `MatchingService._score_background`: education level matches at 1.0,
field of study (a plain string, case-insensitively) at only 0.5. -/
def score_background (user_profile match_profile : Profile) : ℝ :=
  let c1 := truthyE user_profile.education_level ∧ truthyE match_profile.education_level
  let s1 : ℝ :=
    if c1 ∧ user_profile.education_level = match_profile.education_level then 1.0 else 0
  let f1 : ℝ := if c1 then 1 else 0
  let c2 := truthyS user_profile.field_of_study ∧ truthyS match_profile.field_of_study
  let s2 : ℝ :=
    if c2 ∧ (user_profile.field_of_study.getD "").toLower =
      (match_profile.field_of_study.getD "").toLower then 0.5 else 0
  let f2 : ℝ := if c2 then 1 else 0
  if f1 + f2 = 0 then 0.5 else (s1 + s2) / (f1 + f2)

/-- Weight lookup: `weights.get(key, 1.0)` on the seeker's override dict. -/
def weight_of (weights : List (String × ℝ)) (key : String) : ℝ :=
  (weights.lookup key).getD 1.0

/-- `MatchingService._calculate_compatibility_score`: weighted sum of the seven
sub-dimension values, each multiplied by its point budget and the seeker's
weight override; `max_score` accumulates the bare budgets (20+15+25+15+10+10+5). -/
def calculate_compatibility_score (user_profile match_profile : Profile) : ℝ :=
  let weights := user_profile.match_score_weight_preferences.getD []
  let weight_age := weight_of weights "age"
  let weight_distance := weight_of weights "distance"
  let weight_interests := weight_of weights "interests"
  let weight_values := weight_of weights "values"
  let weight_lifestyle := weight_of weights "lifestyle"
  let weight_personality := weight_of weights "personality"
  let weight_background := weight_of weights "background"
  let total_score :=
    score_age_compatibility user_profile match_profile * 20 * weight_age +
    score_distance user_profile match_profile * 15 * weight_distance +
    score_interests (user_profile.hobbies.getD []) (match_profile.hobbies.getD []) *
      25 * weight_interests +
    score_values user_profile match_profile * 15 * weight_values +
    score_lifestyle user_profile match_profile * 10 * weight_lifestyle +
    score_personality user_profile match_profile * 10 * weight_personality +
    score_background user_profile match_profile * 5 * weight_background
  let max_score : ℝ := 20 + 15 + 25 + 15 + 10 + 10 + 5
  if max_score > 0 then total_score / max_score * 100 else 0.0

/-- `MatchingService._has_deal_breaker`: the three deal-breaker tags the code
recognizes, each guarded by truthiness of the candidate's habit field. -/
def has_deal_breaker (deal_breakers : List String) (profile : Profile) : Prop :=
  ("smoking" ∈ deal_breakers ∧ truthyE profile.smoking_habit ∧
    (profile.smoking_habit.getD "" = "regularly" ∨
     profile.smoking_habit.getD "" = "occasionally")) ∨
  ("no_kids" ∈ deal_breakers ∧ truthyE profile.children_status ∧
    profile.children_status.getD "" = "has_children") ∨
  ("drinking" ∈ deal_breakers ∧ truthyE profile.drinking_habit ∧
    (profile.drinking_habit.getD "" = "regularly" ∨
     profile.drinking_habit.getD "" = "heavily"))

/-- `MatchingService._has_all_must_haves`: each recognized must-have tag that is
present must be satisfied, otherwise the function returns `False`. -/
def has_all_must_haves (must_haves : List String) (profile user_profile : Profile) : Prop :=
  ("same_religion" ∈ must_haves →
    truthyE profile.religion ∧ profile.religion = user_profile.religion) ∧
  ("same_education" ∈ must_haves →
    truthyE profile.education_level ∧
    profile.education_level = user_profile.education_level) ∧
  ("no_children" ∈ must_haves →
    ¬ (truthyE profile.children_status ∧
       profile.children_status.getD "" = "has_children"))

/-- Age-minimum rejection rule of `MatchingService._apply_filters`
(`if user_profile.preferred_age_min and profile.age: if profile.age < ...`). -/
def rejected_by_age_min (user_profile profile : Profile) : Prop :=
  truthyI user_profile.preferred_age_min ∧ truthyI profile.age ∧
  profile.age.getD 0 < user_profile.preferred_age_min.getD 0

/-- Age-maximum rejection rule of `MatchingService._apply_filters`. -/
def rejected_by_age_max (user_profile profile : Profile) : Prop :=
  truthyI user_profile.preferred_age_max ∧ truthyI profile.age ∧
  profile.age.getD 0 > user_profile.preferred_age_max.getD 0

/-- Distance rejection rule of `MatchingService._apply_filters`: guarded by
`if user_profile.max_distance_km and user_profile.latitude and profile.latitude`
(truthiness of the preference and of the two latitudes only; the longitudes are
read unguarded once the guard passes — the data-model invariant makes them
present whenever the latitude is). -/
def rejected_by_distance (user_profile profile : Profile) : Prop :=
  truthyI user_profile.max_distance_km ∧ truthyR user_profile.latitude ∧
  truthyR profile.latitude ∧
  calculate_distance (user_profile.latitude.getD 0) (user_profile.longitude.getD 0)
      (profile.latitude.getD 0) (profile.longitude.getD 0) >
    ((user_profile.max_distance_km.getD 0 : ℤ) : ℝ)

/-- Gender-preference rejection rule of `MatchingService._apply_filters`. -/
def rejected_by_gender (user_profile profile : Profile) : Prop :=
  truthyL user_profile.preferred_genders ∧ truthyE profile.gender ∧
  profile.gender.getD "" ∉ user_profile.preferred_genders.getD []

/-- Deal-breaker rejection rule of `MatchingService._apply_filters`. -/
def rejected_by_deal_breakers (user_profile profile : Profile) : Prop :=
  truthyL user_profile.deal_breakers ∧
  has_deal_breaker (user_profile.deal_breakers.getD []) profile

/-- Must-have rejection rule of `MatchingService._apply_filters`. -/
def rejected_by_must_haves (user_profile profile : Profile) : Prop :=
  truthyL user_profile.must_haves ∧
  ¬ has_all_must_haves (user_profile.must_haves.getD []) profile user_profile

/-- A candidate survives `MatchingService._apply_filters` iff no rejection rule
(each a `continue` in the loop body) fires. -/
def passes_hard_filters (user_profile profile : Profile) : Prop :=
  ¬ rejected_by_age_min user_profile profile ∧
  ¬ rejected_by_age_max user_profile profile ∧
  ¬ rejected_by_distance user_profile profile ∧
  ¬ rejected_by_gender user_profile profile ∧
  ¬ rejected_by_deal_breakers user_profile profile ∧
  ¬ rejected_by_must_haves user_profile profile

/-- `MatchingService._apply_filters`: keep, in order, the candidates that no
rule rejects. -/
def apply_filters (user_profile : Profile) : List Profile → List Profile
  | [] => []
  | p :: rest =>
    if passes_hard_filters user_profile p
    then p :: apply_filters user_profile rest
    else apply_filters user_profile rest

/-- One entry of the scored-match dicts built in `find_matches` step 3:
`{"profile": ..., "score": ..., "match_percentage": round(score, 2)}`. -/
structure ScoredMatch where
  profile : Profile
  score : ℝ
  match_percentage : ℝ

/-- Python `round` on an exact real: round half to even. -/
def python_round (x : ℝ) : ℤ :=
  if Int.fract x = 1 / 2 then 2 * round (x / 2) else round x

/-- Python `round(x, 2)`. -/
def python_round2 (x : ℝ) : ℝ := ((python_round (x * 100) : ℤ) : ℝ) / 100

/-- Recent-activity boost of `MatchingService._apply_boosts`:
`hours_ago = (utcnow - last_active_at).total_seconds() / 3600`. -/
def activity_boost (now : ℝ) (profile : Profile) : ℝ :=
  match profile.last_active_at with
  | none => 0
  | some t =>
    let hours_ago := (now - t) / 3600
    if hours_ago < 1 then 5
    else if hours_ago < 24 then 3
    else if hours_ago < 168 then 1
    else 0

/-- Profile-completion boost of `MatchingService._apply_boosts`
(`if profile.profile_completion_percentage:` — 0 is falsy). -/
def completion_boost (profile : Profile) : ℝ :=
  if truthyI profile.profile_completion_percentage then
    if profile.profile_completion_percentage.getD 0 ≥ 90 then 3
    else if profile.profile_completion_percentage.getD 0 ≥ 70 then 1
    else 0
  else 0

/-- Verification boost of `MatchingService._apply_boosts`. -/
def verification_boost (profile : Profile) : ℝ :=
  if profile.is_verified then 2 else 0

/-- `MatchingService._apply_boosts`: add the three boosts to each entry's score
and cap the result at 100 (`match["score"] = min(100, base_score)`). -/
def apply_boosts (now : ℝ) (entries : List ScoredMatch) : List ScoredMatch :=
  entries.map fun mt =>
    { mt with
      score := min 100 (mt.score + activity_boost now mt.profile +
        completion_boost mt.profile + verification_boost mt.profile) }

/-- `MatchingService.find_matches`, with the candidate pool
(`_get_potential_profiles`, a database query) and the current time supplied as
arguments: filter, score, boost, sort by score descending (Python's `sorted`
is stable), and return the slice `ranked[offset : offset + limit]`. -/
def find_matches (now : ℝ) (user_profile : Profile) (pool : List Profile)
    (limit offset : ℕ) : List ScoredMatch :=
  let filtered := apply_filters user_profile pool
  let scored_matches := filtered.map fun p =>
    { profile := p
      score := calculate_compatibility_score user_profile p
      match_percentage := python_round2 (calculate_compatibility_score user_profile p) }
  let boosted_matches := apply_boosts now scored_matches
  let ranked := boosted_matches.mergeSort fun a b => decide (b.score ≤ a.score)
  (ranked.take (offset + limit)).drop offset

/-- The final-score formula exactly as the specification words it (for
comparison with `calculate_compatibility_score`): `100 × (Σ dimension_value ×
budget × weight) / (Σ budget × weight)` over the seven dimensions. -/
def spec_final_score (user_profile match_profile : Profile) : ℝ :=
  let weights := user_profile.match_score_weight_preferences.getD []
  let weight_age := weight_of weights "age"
  let weight_distance := weight_of weights "distance"
  let weight_interests := weight_of weights "interests"
  let weight_values := weight_of weights "values"
  let weight_lifestyle := weight_of weights "lifestyle"
  let weight_personality := weight_of weights "personality"
  let weight_background := weight_of weights "background"
  100 *
    (score_age_compatibility user_profile match_profile * 20 * weight_age +
     score_distance user_profile match_profile * 15 * weight_distance +
     score_interests (user_profile.hobbies.getD []) (match_profile.hobbies.getD []) *
       25 * weight_interests +
     score_values user_profile match_profile * 15 * weight_values +
     score_lifestyle user_profile match_profile * 10 * weight_lifestyle +
     score_personality user_profile match_profile * 10 * weight_personality +
     score_background user_profile match_profile * 5 * weight_background) /
    (20 * weight_age + 15 * weight_distance + 25 * weight_interests +
     15 * weight_values + 10 * weight_lifestyle + 10 * weight_personality +
     5 * weight_background)

/-! ### General lemmas about the embedded engine -/

lemma atan2_nonneg {y x : ℝ} (hy : 0 ≤ y) : 0 ≤ atan2 y x := by
  unfold atan2
  split_ifs with h1 h2 h3 h4 h5
  · have hq : (0 : ℝ) ≤ y / x := div_nonneg hy h1.le
    have := Real.arctan_strictMono.monotone hq
    rwa [Real.arctan_zero] at this
  · have := Real.neg_pi_div_two_lt_arctan (y / x)
    have hp := Real.pi_pos
    linarith
  · exact absurd ⟨h3, hy⟩ h2
  · have hp := Real.pi_pos
    linarith
  · linarith
  · exact le_refl 0

lemma calculate_distance_nonneg (lat1 lon1 lat2 lon2 : ℝ) :
    0 ≤ calculate_distance lat1 lon1 lat2 lon2 := by
  simp only [calculate_distance]
  have h := atan2_nonneg (x := Real.sqrt (1 - (Real.sin (radians (lat2 - lat1) / 2) *
      Real.sin (radians (lat2 - lat1) / 2) +
      Real.cos (radians lat1) * Real.cos (radians lat2) *
      (Real.sin (radians (lon2 - lon1) / 2) * Real.sin (radians (lon2 - lon1) / 2)))))
    (Real.sqrt_nonneg (Real.sin (radians (lat2 - lat1) / 2) *
      Real.sin (radians (lat2 - lat1) / 2) +
      Real.cos (radians lat1) * Real.cos (radians lat2) *
      (Real.sin (radians (lon2 - lon1) / 2) * Real.sin (radians (lon2 - lon1) / 2))))
  nlinarith

lemma calculate_distance_self (lat lon : ℝ) : calculate_distance lat lon lat lon = 0 := by
  simp only [calculate_distance, radians]
  rw [show (lat - lat) * π / 180 = 0 by ring, show (lon - lon) * π / 180 = 0 by ring]
  simp only [zero_div, Real.sin_zero, mul_zero, zero_mul, zero_add, add_zero, sub_zero,
    Real.sqrt_zero, Real.sqrt_one]
  have : atan2 0 1 = 0 := by
    unfold atan2
    rw [if_pos (by norm_num : (0 : ℝ) < 1)]
    simp [Real.arctan_zero]
  rw [this]
  ring

lemma mem_apply_filters {u p : Profile} {l : List Profile} :
    p ∈ apply_filters u l ↔ p ∈ l ∧ passes_hard_filters u p := by
  induction l with
  | nil => simp [apply_filters]
  | cons q rest ih =>
    by_cases h : passes_hard_filters u q
    · simp only [apply_filters, if_pos h, List.mem_cons, ih]
      constructor
      · rintro (rfl | ⟨hm, hp⟩)
        · exact ⟨Or.inl rfl, h⟩
        · exact ⟨Or.inr hm, hp⟩
      · rintro ⟨rfl | hm, hp⟩
        · exact Or.inl rfl
        · exact Or.inr ⟨hm, hp⟩
    · simp only [apply_filters, if_neg h, List.mem_cons, ih]
      constructor
      · rintro ⟨hm, hp⟩
        exact ⟨Or.inr hm, hp⟩
      · rintro ⟨rfl | hm, hp⟩
        · exact absurd hp h
        · exact ⟨hm, hp⟩

lemma apply_filters_eq_nil {u : Profile} {l : List Profile}
    (h : ∀ p ∈ l, ¬ passes_hard_filters u p) : apply_filters u l = [] := by
  induction l with
  | nil => rfl
  | cons q rest ih =>
    rw [apply_filters, if_neg (h q (List.mem_cons_self q rest))]
    exact ih fun p hp => h p (List.mem_cons_of_mem q hp)

lemma apply_filters_sublist_mono {u v : Profile} {l : List Profile}
    (h : ∀ p, passes_hard_filters v p → passes_hard_filters u p) :
    (apply_filters v l).Sublist (apply_filters u l) := by
  induction l with
  | nil => simp [apply_filters]
  | cons q rest ih =>
    by_cases hv : passes_hard_filters v q
    · rw [apply_filters, if_pos hv, apply_filters, if_pos (h q hv)]
      exact ih.cons₂ q
    · rw [apply_filters, if_neg hv]
      by_cases hu : passes_hard_filters u q
      · rw [apply_filters, if_pos hu]
        exact ih.cons q
      · rw [apply_filters, if_neg hu]
        exact ih

lemma python_round_intCast (n : ℤ) : python_round (n : ℝ) = n := by
  unfold python_round
  rw [Int.fract_intCast]
  rw [if_neg (by norm_num), round_intCast]

lemma python_round2_intCast (n : ℤ) : python_round2 (n : ℝ) = n := by
  unfold python_round2
  have : ((n : ℝ)) * 100 = ((n * 100 : ℤ) : ℝ) := by push_cast; ring
  rw [this, python_round_intCast]
  push_cast
  ring

lemma score_age_compatibility_bounds (u m : Profile) :
    0 ≤ score_age_compatibility u m ∧ score_age_compatibility u m ≤ 1 := by
  simp only [score_age_compatibility]
  split_ifs <;> norm_num

lemma score_interests_bounds (a b : List String) :
    0 ≤ score_interests a b ∧ score_interests a b ≤ 1 := by
  simp only [score_interests]
  split_ifs with h1 h2
  · norm_num
  · norm_num
  · have hsub : a.toFinset ∩ b.toFinset ⊆ a.toFinset ∪ b.toFinset :=
      Finset.inter_subset_left.trans Finset.subset_union_left
    constructor
    · positivity
    · rw [div_le_one (by exact_mod_cast Nat.pos_of_ne_zero h2)]
      exact_mod_cast Finset.card_le_card hsub

lemma sum_div_ite_bounds3 {s1 s2 s3 f1 f2 f3 : ℝ}
    (h1 : 0 ≤ s1 ∧ s1 ≤ f1) (h2 : 0 ≤ s2 ∧ s2 ≤ f2) (h3 : 0 ≤ s3 ∧ s3 ≤ f3) :
    0 ≤ (if f1 + f2 + f3 = 0 then (0.5 : ℝ) else (s1 + s2 + s3) / (f1 + f2 + f3)) ∧
    (if f1 + f2 + f3 = 0 then (0.5 : ℝ) else (s1 + s2 + s3) / (f1 + f2 + f3)) ≤ 1 := by
  split_ifs with hF
  · norm_num
  · have hFnn : 0 ≤ f1 + f2 + f3 := by
      linarith [h1.1.trans h1.2, h2.1.trans h2.2, h3.1.trans h3.2]
    have hFpos : 0 < f1 + f2 + f3 := lt_of_le_of_ne hFnn (Ne.symm hF)
    exact ⟨div_nonneg (by linarith [h1.1, h2.1, h3.1]) hFpos.le,
      (div_le_one hFpos).mpr (by linarith [h1.2, h2.2, h3.2])⟩

lemma sum_div_ite_bounds2 {s1 s2 f1 f2 : ℝ}
    (h1 : 0 ≤ s1 ∧ s1 ≤ f1) (h2 : 0 ≤ s2 ∧ s2 ≤ f2) :
    0 ≤ (if f1 + f2 = 0 then (0.5 : ℝ) else (s1 + s2) / (f1 + f2)) ∧
    (if f1 + f2 = 0 then (0.5 : ℝ) else (s1 + s2) / (f1 + f2)) ≤ 1 := by
  split_ifs with hF
  · norm_num
  · have hFnn : 0 ≤ f1 + f2 := by linarith [h1.1.trans h1.2, h2.1.trans h2.2]
    have hFpos : 0 < f1 + f2 := lt_of_le_of_ne hFnn (Ne.symm hF)
    exact ⟨div_nonneg (by linarith [h1.1, h2.1]) hFpos.le,
      (div_le_one hFpos).mpr (by linarith [h1.2, h2.2])⟩

lemma score_values_bounds (u m : Profile) :
    0 ≤ score_values u m ∧ score_values u m ≤ 1 := by
  have hsi := score_interests_bounds (u.values.getD []) (m.values.getD [])
  simp only [score_values]
  refine sum_div_ite_bounds3 ?_ ?_ ?_
  · constructor
    · split_ifs <;> norm_num
    · split_ifs with ha hb <;> first | exact absurd ha.1 hb | norm_num
  · constructor
    · split_ifs <;> norm_num
    · split_ifs with ha hb <;> first | exact absurd ha.1 hb | norm_num
  · constructor
    · split_ifs <;> first | exact hsi.1 | norm_num
    · split_ifs <;> first | exact hsi.2 | norm_num

lemma score_lifestyle_bounds (u m : Profile) :
    0 ≤ score_lifestyle u m ∧ score_lifestyle u m ≤ 1 := by
  simp only [score_lifestyle]
  refine sum_div_ite_bounds3 ?_ ?_ ?_
  · constructor
    · split_ifs <;> norm_num
    · split_ifs <;> first | tauto | norm_num
  · constructor
    · split_ifs <;> norm_num
    · split_ifs with ha hb <;> first | exact absurd ha.1 hb | norm_num
  · constructor
    · split_ifs <;> norm_num
    · split_ifs with ha hb <;> first | exact absurd ha.1 hb | norm_num

lemma score_personality_bounds (u m : Profile) :
    0 ≤ score_personality u m ∧ score_personality u m ≤ 1 := by
  simp only [score_personality]
  split_ifs <;> norm_num

lemma score_background_bounds (u m : Profile) :
    0 ≤ score_background u m ∧ score_background u m ≤ 1 := by
  simp only [score_background]
  refine sum_div_ite_bounds2 ?_ ?_
  · constructor
    · split_ifs <;> norm_num
    · split_ifs with ha hb <;> first | exact absurd ha.1 hb | norm_num
  · constructor
    · split_ifs <;> norm_num
    · split_ifs with ha hb <;> first | exact absurd ha.1 hb | norm_num

lemma score_distance_bounds (u m : Profile)
    (hmax : ∀ d, u.max_distance_km = some d → 0 ≤ d) :
    0 ≤ score_distance u m ∧ score_distance u m ≤ 1 := by
  have hmd : (0 : ℝ) < (if truthyI u.max_distance_km
      then ((u.max_distance_km.getD 0 : ℤ) : ℝ) else 100) := by
    split_ifs with h
    · rcases hu : u.max_distance_km with _ | d
      · rw [hu] at h
        simp [truthyI] at h
      · rw [hu] at h
        simp only [hu, Option.getD_some]
        have h0 := hmax d hu
        have hne : d ≠ 0 := by simpa [truthyI] using h
        exact_mod_cast lt_of_le_of_ne h0 (Ne.symm hne)
    · norm_num
  have hdk : 0 ≤ calculate_distance (u.latitude.getD 0) (u.longitude.getD 0)
      (m.latitude.getD 0) (m.longitude.getD 0) :=
    calculate_distance_nonneg _ _ _ _
  simp only [score_distance]
  generalize hMD : (if truthyI u.max_distance_km
      then ((u.max_distance_km.getD 0 : ℤ) : ℝ) else 100) = md at hmd ⊢
  generalize hDK : calculate_distance (u.latitude.getD 0) (u.longitude.getD 0)
      (m.latitude.getD 0) (m.longitude.getD 0) = dk at hdk ⊢
  have hq : 0 ≤ dk / md := div_nonneg hdk hmd.le
  split_ifs <;> constructor <;> nlinarith [hq]

lemma weight_of_bounds {l : List (String × ℝ)} (hl : ∀ kv ∈ l, 0 ≤ kv.2 ∧ kv.2 ≤ 1)
    (k : String) : 0 ≤ weight_of l k ∧ weight_of l k ≤ 1 := by
  unfold weight_of
  rcases h : l.lookup k with _ | v
  · norm_num
  · simp only [Option.getD_some]
    obtain ⟨l₁, l₂, rfl, -⟩ := List.lookup_eq_some_iff.mp h
    exact hl (k, v) (by simp)

lemma score_interests_self {l : List String} (h : l ≠ []) : score_interests l l = 1 := by
  simp only [score_interests, if_neg (by simp [h] : ¬ (l = [] ∨ l = []))]
  rw [Finset.inter_self, Finset.union_self]
  have hc : l.toFinset.card ≠ 0 := by
    simp only [ne_eq, Finset.card_eq_zero, List.toFinset_eq_empty_iff]
    exact h
  rw [if_neg hc, div_self (by exact_mod_cast hc)]

/-! ### Concrete profiles used as test vectors -/

/-- A profile with every optional field absent. -/
def profile_blank : Profile := {}

/-- Seeker overriding only the age weight, to zero. -/
def seeker_age_weight_zero : Profile :=
  { match_score_weight_preferences := some [("age", 0)] }

/-- Seeker with every dimension weight overridden to 2 and every scored
attribute present. -/
def seeker_weights_two : Profile :=
  { age := some 30, religion := some "spiritual", children_status := some "no_children",
    values := some ["family"], drinking_habit := some "never",
    smoking_habit := some "never", lifestyle_preference := some "homebody",
    personality_type := some "INTJ", education_level := some "bachelors",
    field_of_study := some "math", hobbies := some ["hiking"],
    match_score_weight_preferences := some
      [("age", 2), ("distance", 2), ("interests", 2), ("values", 2),
       ("lifestyle", 2), ("personality", 2), ("background", 2)] }

/-- Candidate agreeing with `seeker_weights_two` on every scored attribute. -/
def candidate_full_match : Profile :=
  { age := some 30, religion := some "spiritual", children_status := some "no_children",
    values := some ["family"], drinking_habit := some "never",
    smoking_habit := some "never", lifestyle_preference := some "homebody",
    personality_type := some "INTJ", education_level := some "bachelors",
    field_of_study := some "math", hobbies := some ["hiking"] }

lemma pair_interests_hiking : score_interests ["hiking"] ["hiking"] = 1 :=
  score_interests_self (by simp)

lemma pair_interests_family : score_interests ["family"] ["family"] = 1 :=
  score_interests_self (by simp)

lemma score_weights_two_eval :
    calculate_compatibility_score seeker_weights_two candidate_full_match = 178.5 := by
  simp only [calculate_compatibility_score, score_age_compatibility, score_distance,
    score_values, score_lifestyle, score_personality, score_background, weight_of,
    seeker_weights_two, candidate_full_match, truthyI, truthyR, truthyE, truthyL,
    truthyS, Option.getD_some, Option.getD_none, List.lookup, pair_interests_hiking,
    pair_interests_family]
  simp only [ne_eq, String.reduceEq, String.reduceBEq, not_false_iff]
  norm_num

/-- Candidate whose only engagement signal is the verification flag. -/
def candidate_verified : Profile := { is_verified := true }

lemma score_blank_verified_eval :
    calculate_compatibility_score profile_blank candidate_verified = 45 := by
  simp only [calculate_compatibility_score, score_age_compatibility, score_distance,
    score_interests, score_values, score_lifestyle, score_personality, score_background,
    weight_of, profile_blank, candidate_verified, truthyI, truthyR, truthyE, truthyL,
    truthyS, Option.getD_some, Option.getD_none, List.lookup]
  norm_num

lemma score_age_weight_zero_eval :
    calculate_compatibility_score seeker_age_weight_zero profile_blank = 35 := by
  simp only [calculate_compatibility_score, score_age_compatibility, score_distance,
    score_interests, score_values, score_lifestyle, score_personality, score_background,
    weight_of, profile_blank, seeker_age_weight_zero, truthyI, truthyR, truthyE, truthyL,
    truthyS, Option.getD_some, Option.getD_none, List.lookup]
  simp only [String.reduceBEq, beq_self_eq_true]
  norm_num

lemma spec_score_age_weight_zero_eval :
    spec_final_score seeker_age_weight_zero profile_blank = 43.75 := by
  simp only [spec_final_score, score_age_compatibility, score_distance,
    score_interests, score_values, score_lifestyle, score_personality, score_background,
    weight_of, profile_blank, seeker_age_weight_zero, truthyI, truthyR, truthyE, truthyL,
    truthyS, Option.getD_some, Option.getD_none, List.lookup]
  simp only [String.reduceBEq, beq_self_eq_true]
  norm_num

/-- The spec's scenario profile: age 30, nonzero coordinates, two hobbies,
religion and children status present, everything else absent. -/
def scenario_profile : Profile :=
  { age := some 30, latitude := some 10, longitude := some 20,
    hobbies := some ["hiking", "reading"], religion := some "christian",
    children_status := some "no_children" }

lemma pair_interests_scenario : score_interests ["hiking", "reading"] ["hiking", "reading"] = 1 :=
  score_interests_self (by simp)

lemma score_scenario_eval :
    calculate_compatibility_score scenario_profile scenario_profile = 87.5 := by
  have hd : calculate_distance ((10 : ℝ)) ((20 : ℝ)) ((10 : ℝ)) ((20 : ℝ)) = 0 :=
    calculate_distance_self 10 20
  simp only [calculate_compatibility_score, score_age_compatibility, score_distance,
    score_values, score_lifestyle, score_personality, score_background,
    weight_of, scenario_profile, truthyI, truthyR, truthyE, truthyL,
    truthyS, Option.getD_some, Option.getD_none, List.lookup, hd,
    pair_interests_scenario]
  norm_num

/-- Seeker on the equator at the prime meridian with a 5 km distance cap. -/
def seeker_equator : Profile :=
  { latitude := some 0, longitude := some 0, max_distance_km := some 5 }

/-- Candidate on the equator on the opposite side of the Earth. -/
def candidate_antipodal : Profile := { latitude := some 0, longitude := some 180 }

lemma calculate_distance_antipodal : calculate_distance 0 0 0 180 = 6371 * π := by
  simp only [calculate_distance, radians]
  rw [show ((0 : ℝ) - 0) * π / 180 = 0 by ring,
    show ((180 : ℝ) - 0) * π / 180 / 2 = π / 2 by ring,
    show (0 : ℝ) * π / 180 = 0 by ring]
  simp only [zero_div, Real.sin_zero, Real.sin_pi_div_two, Real.cos_zero,
    mul_zero, zero_mul, zero_add, mul_one, one_mul]
  rw [Real.sqrt_one, show (1 : ℝ) - 1 = 0 by ring, Real.sqrt_zero]
  have : atan2 1 0 = π / 2 := by
    unfold atan2
    rw [if_neg (by norm_num), if_neg (by norm_num), if_neg (by norm_num),
      if_pos (by norm_num : (0 : ℝ) < 1)]
  rw [this]
  ring

lemma equator_passes :
    passes_hard_filters seeker_equator candidate_antipodal := by
  refine ⟨?_, ?_, ?_, ?_, ?_, ?_⟩ <;>
    simp [rejected_by_age_min, rejected_by_age_max, rejected_by_distance,
      rejected_by_gender, rejected_by_deal_breakers, rejected_by_must_haves,
      seeker_equator, candidate_antipodal, truthyI, truthyR, truthyE, truthyL]

lemma python_round2_forty_five : python_round2 (45 : ℝ) = 45 := by
  have h := python_round2_intCast 45
  push_cast at h
  exact h

lemma python_round2_forty_seven : python_round2 (47 : ℝ) = 47 := by
  have h := python_round2_intCast 47
  push_cast at h
  exact h

lemma blank_passes_verified :
    passes_hard_filters profile_blank candidate_verified := by
  refine ⟨?_, ?_, ?_, ?_, ?_, ?_⟩ <;>
    simp [rejected_by_age_min, rejected_by_age_max, rejected_by_distance,
      rejected_by_gender, rejected_by_deal_breakers, rejected_by_must_haves,
      profile_blank, candidate_verified, truthyI, truthyR, truthyE, truthyL]

lemma find_matches_blank_verified :
    find_matches 0 profile_blank [candidate_verified] 20 0 =
      [⟨candidate_verified, 47, 45⟩] := by
  have hfil : apply_filters profile_blank [candidate_verified] = [candidate_verified] := by
    rw [apply_filters, if_pos blank_passes_verified, apply_filters]
  simp only [find_matches, hfil, List.map_cons, List.map_nil,
    score_blank_verified_eval, python_round2_forty_five, apply_boosts,
    activity_boost, completion_boost, verification_boost, truthyI]
  norm_num [candidate_verified, min_def, List.mergeSort_singleton, List.take, List.drop]

/-! ### Claims -/

set_option maxHeartbeats 1000000 in
/-- C1 (amended): the compatibility score equals 100 times the sum over the
seven dimensions of (dimension value × point budget × seeker weight override)
divided by the sum of the point budgets alone (20+15+25+15+10+10+5 = 100); the
weight overrides scale only the numerator, not the denominator. -/
theorem C1_score_formula (u m : Profile) :
    calculate_compatibility_score u m =
      100 *
        (score_age_compatibility u m * 20 *
            weight_of (u.match_score_weight_preferences.getD []) "age" +
         score_distance u m * 15 *
            weight_of (u.match_score_weight_preferences.getD []) "distance" +
         score_interests (u.hobbies.getD []) (m.hobbies.getD []) * 25 *
            weight_of (u.match_score_weight_preferences.getD []) "interests" +
         score_values u m * 15 *
            weight_of (u.match_score_weight_preferences.getD []) "values" +
         score_lifestyle u m * 10 *
            weight_of (u.match_score_weight_preferences.getD []) "lifestyle" +
         score_personality u m * 10 *
            weight_of (u.match_score_weight_preferences.getD []) "personality" +
         score_background u m * 5 *
            weight_of (u.match_score_weight_preferences.getD []) "background") /
        (20 + 15 + 25 + 15 + 10 + 10 + 5) := by
  simp only [calculate_compatibility_score]
  rw [if_pos (by norm_num : (20 : ℝ) + 15 + 25 + 15 + 10 + 10 + 5 > 0)]
  ring

/-- C1 counterexample: with the age weight overridden to 0 the code returns 35
(it divides by the unweighted budget sum 100) while the spec's formula, whose
denominator drops the zero-weighted age budget, returns 43.75. -/
theorem C1_counterexample :
    calculate_compatibility_score seeker_age_weight_zero profile_blank ≠
      spec_final_score seeker_age_weight_zero profile_blank := by
  rw [score_age_weight_zero_eval, spec_score_age_weight_zero_eval]
  norm_num

set_option maxHeartbeats 2000000 in
/-- C2 (amended): the compatibility score lies in [0, 100] provided every
per-dimension weight override lies in [0, 1] (absent entries default to 1) and
the seeker's max-distance preference, when present, is non-negative.  With a
weight override above 1 the score can exceed 100 (see the counterexample). -/
theorem C2_score_in_range (u m : Profile)
    (hw : ∀ kv ∈ u.match_score_weight_preferences.getD [], 0 ≤ kv.2 ∧ kv.2 ≤ 1)
    (hmax : ∀ d, u.max_distance_km = some d → 0 ≤ d) :
    0 ≤ calculate_compatibility_score u m ∧
    calculate_compatibility_score u m ≤ 100 := by
  obtain ⟨ha0, ha1⟩ := score_age_compatibility_bounds u m
  obtain ⟨hd0, hd1⟩ := score_distance_bounds u m hmax
  obtain ⟨hi0, hi1⟩ := score_interests_bounds (u.hobbies.getD []) (m.hobbies.getD [])
  obtain ⟨hv0, hv1⟩ := score_values_bounds u m
  obtain ⟨hl0, hl1⟩ := score_lifestyle_bounds u m
  obtain ⟨hp0, hp1⟩ := score_personality_bounds u m
  obtain ⟨hb0, hb1⟩ := score_background_bounds u m
  obtain ⟨hwa0, hwa1⟩ := weight_of_bounds hw "age"
  obtain ⟨hwd0, hwd1⟩ := weight_of_bounds hw "distance"
  obtain ⟨hwi0, hwi1⟩ := weight_of_bounds hw "interests"
  obtain ⟨hwv0, hwv1⟩ := weight_of_bounds hw "values"
  obtain ⟨hwl0, hwl1⟩ := weight_of_bounds hw "lifestyle"
  obtain ⟨hwp0, hwp1⟩ := weight_of_bounds hw "personality"
  obtain ⟨hwb0, hwb1⟩ := weight_of_bounds hw "background"
  simp only [calculate_compatibility_score]
  rw [if_pos (by norm_num : (20 : ℝ) + 15 + 25 + 15 + 10 + 10 + 5 > 0)]
  have t1a : 0 ≤ score_age_compatibility u m * 20 *
      weight_of (u.match_score_weight_preferences.getD []) "age" := by positivity
  have t1b : score_age_compatibility u m * 20 *
      weight_of (u.match_score_weight_preferences.getD []) "age" ≤ 20 := by nlinarith
  have t2a : 0 ≤ score_distance u m * 15 *
      weight_of (u.match_score_weight_preferences.getD []) "distance" := by positivity
  have t2b : score_distance u m * 15 *
      weight_of (u.match_score_weight_preferences.getD []) "distance" ≤ 15 := by nlinarith
  have t3a : 0 ≤ score_interests (u.hobbies.getD []) (m.hobbies.getD []) * 25 *
      weight_of (u.match_score_weight_preferences.getD []) "interests" := by positivity
  have t3b : score_interests (u.hobbies.getD []) (m.hobbies.getD []) * 25 *
      weight_of (u.match_score_weight_preferences.getD []) "interests" ≤ 25 := by nlinarith
  have t4a : 0 ≤ score_values u m * 15 *
      weight_of (u.match_score_weight_preferences.getD []) "values" := by positivity
  have t4b : score_values u m * 15 *
      weight_of (u.match_score_weight_preferences.getD []) "values" ≤ 15 := by nlinarith
  have t5a : 0 ≤ score_lifestyle u m * 10 *
      weight_of (u.match_score_weight_preferences.getD []) "lifestyle" := by positivity
  have t5b : score_lifestyle u m * 10 *
      weight_of (u.match_score_weight_preferences.getD []) "lifestyle" ≤ 10 := by nlinarith
  have t6a : 0 ≤ score_personality u m * 10 *
      weight_of (u.match_score_weight_preferences.getD []) "personality" := by positivity
  have t6b : score_personality u m * 10 *
      weight_of (u.match_score_weight_preferences.getD []) "personality" ≤ 10 := by nlinarith
  have t7a : 0 ≤ score_background u m * 5 *
      weight_of (u.match_score_weight_preferences.getD []) "background" := by positivity
  have t7b : score_background u m * 5 *
      weight_of (u.match_score_weight_preferences.getD []) "background" ≤ 5 := by nlinarith
  constructor
  · have : (0 : ℝ) ≤ 100 := by norm_num
    nlinarith
  · nlinarith

/-- C2 witness: a seeker with no overrides and no distance cap scores within
[0, 100] against any candidate, here the blank one. -/
theorem C2_witness :
    0 ≤ calculate_compatibility_score profile_blank profile_blank ∧
    calculate_compatibility_score profile_blank profile_blank ≤ 100 :=
  C2_score_in_range profile_blank profile_blank (by simp [profile_blank])
    (by simp [profile_blank])

/-- C2 counterexample: with every weight override set to 2 and a perfectly
matching candidate the score is 178.5, outside [0, 100]. -/
theorem C2_counterexample :
    calculate_compatibility_score seeker_weights_two candidate_full_match > 100 := by
  rw [score_weights_two_eval]
  norm_num

/-- C3 (amended): in the spec's scenario — seeker and candidate both aged 30,
identical nonzero coordinates, identical non-empty hobby sets, identical
religion and children status, no weight overrides, and the remaining scored
attributes absent — the raw compatibility score is exactly 87.5, hence at
least 87.5 but below the claimed 90: values credit is full (religion and
children status both match), while lifestyle, personality and background fall
back to the neutral 0.5. -/
theorem C3_scenario_score (u m : Profile) (la lo : ℝ) (hob : List String)
    (r c : String)
    (hua : u.age = some 30) (hma : m.age = some 30)
    (hula : u.latitude = some la) (hulo : u.longitude = some lo)
    (hmla : m.latitude = some la) (hmlo : m.longitude = some lo)
    (hla : la ≠ 0) (hlo : lo ≠ 0)
    (huh : u.hobbies = some hob) (hmh : m.hobbies = some hob) (hhne : hob ≠ [])
    (hur : u.religion = some r) (hmr : m.religion = some r)
    (huc : u.children_status = some c) (hmc : m.children_status = some c)
    (huv : u.values = none) (hud : u.drinking_habit = none)
    (hus : u.smoking_habit = none) (hul : u.lifestyle_preference = none)
    (hup : u.personality_type = none) (hue : u.education_level = none)
    (huf : u.field_of_study = none)
    (huw : u.match_score_weight_preferences = none) :
    calculate_compatibility_score u m = 87.5 := by
  have hd : calculate_distance la lo la lo = 0 := calculate_distance_self la lo
  have hsi : score_interests hob hob = 1 := score_interests_self hhne
  simp only [calculate_compatibility_score, score_age_compatibility, score_distance,
    score_values, score_lifestyle, score_personality, score_background, weight_of,
    hua, hma, hula, hulo, hmla, hmlo, huh, hmh, hur, hmr, huc, hmc, huv, hud, hus,
    hul, hup, hue, huf, huw, truthyI, truthyR, truthyE, truthyL, truthyS,
    Option.getD_some, Option.getD_none, List.lookup, hd, hsi]
  norm_num [hla, hlo]

/-- C3 witness: the amended claim instantiated at the concrete scenario
profile. -/
theorem C3_witness :
    calculate_compatibility_score scenario_profile scenario_profile = 87.5 :=
  C3_scenario_score scenario_profile scenario_profile 10 20 ["hiking", "reading"]
    "christian" "no_children" rfl rfl rfl rfl rfl rfl (by norm_num) (by norm_num)
    rfl rfl (by simp) rfl rfl rfl rfl rfl rfl rfl rfl rfl rfl rfl rfl

/-- C3 counterexample: the scenario profiles score 87.5, below the claimed 90. -/
theorem C3_counterexample :
    calculate_compatibility_score scenario_profile scenario_profile < 90 := by
  rw [score_scenario_eval]
  norm_num

lemma activity_boost_nonneg (now : ℝ) (p : Profile) : 0 ≤ activity_boost now p := by
  unfold activity_boost
  rcases p.last_active_at with _ | t
  · norm_num
  · simp only
    split_ifs <;> norm_num

lemma completion_boost_nonneg (p : Profile) : 0 ≤ completion_boost p := by
  unfold completion_boost
  split_ifs <;> norm_num

lemma verification_boost_nonneg (p : Profile) : 0 ≤ verification_boost p := by
  unfold verification_boost
  split_ifs <;> norm_num

/-- C4 (amended): every boosted score is at most 100, and boosting never
decreases a score whose pre-boost value is at most 100.  (A pre-boost score can
exceed 100 under weight overrides above 1, and the `min 100` clamp then lowers
it — see the counterexample.) -/
theorem C4_boost_bounds (now : ℝ) (entries : List ScoredMatch) :
    (∀ mt ∈ apply_boosts now entries, mt.score ≤ 100) ∧
    ((∀ mt ∈ entries, mt.score ≤ 100) →
      List.Forall₂ (fun a b => a.score ≤ b.score) entries (apply_boosts now entries)) := by
  constructor
  · intro mt hmt
    simp only [apply_boosts, List.mem_map] at hmt
    obtain ⟨a, -, rfl⟩ := hmt
    exact min_le_left _ _
  · intro hall
    unfold apply_boosts
    rw [List.forall₂_map_right_iff, List.forall₂_same]
    intro a ha
    refine le_min (hall a ha) ?_
    have h1 := activity_boost_nonneg now a.profile
    have h2 := completion_boost_nonneg a.profile
    have h3 := verification_boost_nonneg a.profile
    linarith

/-- C4 witness: a 45-point entry for the verified candidate is not decreased
by boosting. -/
theorem C4_witness :
    List.Forall₂ (fun a b : ScoredMatch => a.score ≤ b.score)
      [⟨candidate_verified, (45 : ℝ), 45⟩]
      (apply_boosts 0 [⟨candidate_verified, (45 : ℝ), 45⟩]) :=
  (C4_boost_bounds 0 [⟨candidate_verified, (45 : ℝ), 45⟩]).2 (by
    intro mt hmt
    rw [List.mem_singleton] at hmt
    rw [hmt]
    norm_num)

/-- C4 counterexample: scoring the perfectly matching candidate under
all-weights-2 overrides yields 178.5; applying boosts (all zero here) clamps
the score down to 100, strictly decreasing it. -/
theorem C4_counterexample :
    (apply_boosts 0 [⟨candidate_full_match,
        calculate_compatibility_score seeker_weights_two candidate_full_match,
        python_round2 (calculate_compatibility_score seeker_weights_two
          candidate_full_match)⟩]).map ScoredMatch.score = [100] ∧
    (100 : ℝ) < calculate_compatibility_score seeker_weights_two candidate_full_match := by
  have hla : candidate_full_match.last_active_at = none := rfl
  have hpc : candidate_full_match.profile_completion_percentage = none := rfl
  have hiv : candidate_full_match.is_verified = false := rfl
  constructor
  · simp only [apply_boosts, List.map_cons, List.map_nil, score_weights_two_eval,
      activity_boost, completion_boost, verification_boost, hla, hpc, hiv, truthyI]
    norm_num [min_def]
  · rw [score_weights_two_eval]
    norm_num

/-- C5 (confirmed): the ranked output is the `[offset, offset+limit)` slice of
a descending-sorted permutation of the boosted scored candidates; its length is
`min limit (n - offset)` (truncated subtraction, so never negative), never
exceeds `limit`, and an offset at or beyond `n` yields `[]` rather than an
error. -/
theorem C5_rank_slice (now : ℝ) (u : Profile) (pool : List Profile)
    (limit offset : ℕ) :
    (∃ ranked : List ScoredMatch,
      ranked.Pairwise (fun a b => b.score ≤ a.score) ∧
      ranked.Perm (apply_boosts now ((apply_filters u pool).map fun p =>
        { profile := p, score := calculate_compatibility_score u p,
          match_percentage := python_round2 (calculate_compatibility_score u p) })) ∧
      find_matches now u pool limit offset = (ranked.take (offset + limit)).drop offset) ∧
    (find_matches now u pool limit offset).length =
      min limit ((apply_filters u pool).length - offset) ∧
    (find_matches now u pool limit offset).length ≤ limit ∧
    ((apply_filters u pool).length ≤ offset →
      find_matches now u pool limit offset = []) := by
  have hsorted : ((apply_boosts now ((apply_filters u pool).map fun p =>
      { profile := p, score := calculate_compatibility_score u p,
        match_percentage := python_round2 (calculate_compatibility_score u p)
        : ScoredMatch })).mergeSort
        fun a b => decide (b.score ≤ a.score)).Pairwise
        (fun a b : ScoredMatch => b.score ≤ a.score) := by
    have h := @List.sorted_mergeSort ScoredMatch
      (fun a b : ScoredMatch => decide (b.score ≤ a.score))
      (by intro a b c hab hbc
          simp only [decide_eq_true_eq] at *
          exact le_trans hbc hab)
      (by intro a b
          simp only [Bool.or_eq_true, decide_eq_true_eq]
          exact le_total b.score a.score)
      (apply_boosts now ((apply_filters u pool).map fun p =>
        { profile := p, score := calculate_compatibility_score u p,
          match_percentage := python_round2 (calculate_compatibility_score u p) }))
    exact h.imp fun hab => of_decide_eq_true hab
  have hperm := List.mergeSort_perm (apply_boosts now
      ((apply_filters u pool).map fun p =>
        { profile := p, score := calculate_compatibility_score u p,
          match_percentage := python_round2 (calculate_compatibility_score u p)
          : ScoredMatch }))
      (fun a b => decide (b.score ≤ a.score))
  have hlen : (find_matches now u pool limit offset).length =
      min limit ((apply_filters u pool).length - offset) := by
    show (List.drop offset (List.take (offset + limit)
        ((apply_boosts now ((apply_filters u pool).map fun p =>
          { profile := p, score := calculate_compatibility_score u p,
            match_percentage := python_round2 (calculate_compatibility_score u p)
            : ScoredMatch })).mergeSort
          fun a b => decide (b.score ≤ a.score)))).length =
      min limit ((apply_filters u pool).length - offset)
    rw [List.length_drop, List.length_take, hperm.length_eq]
    simp only [apply_boosts, List.length_map]
    omega
  refine ⟨⟨(apply_boosts now ((apply_filters u pool).map fun p =>
      { profile := p, score := calculate_compatibility_score u p,
        match_percentage := python_round2 (calculate_compatibility_score u p)
        : ScoredMatch })).mergeSort
      fun a b => decide (b.score ≤ a.score), hsorted, hperm, rfl⟩, hlen, ?_, ?_⟩
  · rw [hlen]
    omega
  · intro h
    have := hlen
    rw [Nat.sub_eq_zero_of_le h, Nat.min_zero] at this
    exact List.length_eq_zero.mp this

/-- C5 witness: on an empty candidate pool the output is empty. -/
theorem C5_witness : find_matches 0 profile_blank [] 0 0 = [] :=
  (C5_rank_slice 0 profile_blank [] 0 0).2.2.2 (by simp [apply_filters])

/-- C6 (amended): the distance rule rejects exactly when the seeker's
max-distance preference is present and nonzero, both latitudes are present and
nonzero, and the Haversine distance exceeds the preference; whenever the
preference is absent or zero, or a latitude is absent or zero, the rule never
rejects, and a rejected candidate never appears in the filtered output.  (The
code's guard tests Python truthiness of the preference and of the two latitudes
only, so presence of coordinates alone is not what is checked: a party at
latitude 0 — the equator — fails open.) -/
theorem C6_distance_rule (u p : Profile) (pool : List Profile) :
    ((u.max_distance_km = none ∨ u.max_distance_km = some 0 ∨
      u.latitude = none ∨ u.latitude = some 0 ∨
      p.latitude = none ∨ p.latitude = some 0) → ¬ rejected_by_distance u p) ∧
    (∀ md la lb, u.max_distance_km = some md → md ≠ 0 →
      u.latitude = some la → la ≠ 0 → p.latitude = some lb → lb ≠ 0 →
      (rejected_by_distance u p ↔
        calculate_distance la (u.longitude.getD 0) lb (p.longitude.getD 0) >
          (md : ℝ))) ∧
    (rejected_by_distance u p → p ∉ apply_filters u pool) := by
  refine ⟨?_, ?_, ?_⟩
  · rintro (h | h | h | h | h | h) ⟨h1, h2, h3, -⟩
    · rw [h] at h1; simp [truthyI] at h1
    · rw [h] at h1; simp [truthyI] at h1
    · rw [h] at h2; simp [truthyR] at h2
    · rw [h] at h2; simp [truthyR] at h2
    · rw [h] at h3; simp [truthyR] at h3
    · rw [h] at h3; simp [truthyR] at h3
  · intro md la lb h1 h2 h3 h4 h5 h6
    unfold rejected_by_distance
    rw [h1, h3, h5]
    simp [truthyI, truthyR, h2, h4, h6]
  · intro hrej hmem
    rw [mem_apply_filters] at hmem
    exact hmem.2.2.2.1 hrej

/-- C6 witness: a seeker with no data at all is never distance-rejected. -/
theorem C6_witness : ¬ rejected_by_distance profile_blank profile_blank :=
  (C6_distance_rule profile_blank profile_blank []).1 (Or.inl rfl)

/-- C6 counterexample: seeker at (0, 0) with a 5 km cap, candidate at (0, 180):
both parties have coordinates, the preference is set, and the great-circle
distance (6371·π km) vastly exceeds 5 km, yet the candidate passes the filter —
the seeker's latitude 0 makes the truthiness guard fail open. -/
theorem C6_counterexample :
    seeker_equator.latitude = some 0 ∧ seeker_equator.longitude = some 0 ∧
    candidate_antipodal.latitude = some 0 ∧ candidate_antipodal.longitude = some 180 ∧
    seeker_equator.max_distance_km = some 5 ∧
    calculate_distance 0 0 0 180 > 5 ∧
    apply_filters seeker_equator [candidate_antipodal] = [candidate_antipodal] := by
  refine ⟨rfl, rfl, rfl, rfl, rfl, ?_, ?_⟩
  · rw [calculate_distance_antipodal]
    nlinarith [Real.pi_gt_three]
  · rw [apply_filters, if_pos equator_passes, apply_filters]

/-- C7 (confirmed): the interests sub-score is 1.0 on identical non-empty tag
sets, 0.0 on disjoint non-empty collections, and 0.3 as soon as either
collection is empty — the empty check short-circuits before the Jaccard
computation, so empty inputs yield 0.3, never the union-empty 0.0. -/
theorem C7_interests (a b : List String) :
    (a.toFinset = b.toFinset → a ≠ [] → score_interests a b = 1) ∧
    (a ≠ [] → b ≠ [] → a.toFinset ∩ b.toFinset = ∅ → score_interests a b = 0) ∧
    (a = [] ∨ b = [] → score_interests a b = 0.3) := by
  refine ⟨?_, ?_, ?_⟩
  · intro hset hne
    have hbne : b ≠ [] := by
      intro hb
      subst hb
      simp only [List.toFinset_nil] at hset
      exact hne (List.toFinset_eq_empty_iff _ |>.mp hset)
    simp only [score_interests, if_neg (by simp [hne, hbne] :
      ¬ (a = [] ∨ b = []))]
    rw [hset, Finset.inter_self, Finset.union_self]
    have hc : b.toFinset.card ≠ 0 := by
      simp only [ne_eq, Finset.card_eq_zero]
      rw [List.toFinset_eq_empty_iff]
      exact hbne
    rw [if_neg hc, div_self (by exact_mod_cast hc)]
  · intro ha hb hint
    simp only [score_interests, if_neg (by simp [ha, hb] :
      ¬ (a = [] ∨ b = []))]
    rw [hint]
    split_ifs
    · norm_num
    · rw [Finset.card_empty, Nat.cast_zero, zero_div]
  · intro h
    unfold score_interests
    rw [if_pos h]

/-- C7 witness: concrete instances of the three cases. -/
theorem C7_witness :
    score_interests ["hiking"] ["hiking"] = 1 ∧
    score_interests ["hiking"] ["reading"] = 0 ∧
    score_interests [] [] = 0.3 :=
  ⟨(C7_interests ["hiking"] ["hiking"]).1 rfl (by simp),
   (C7_interests ["hiking"] ["reading"]).2.1 (by simp) (by simp) (by decide),
   (C7_interests [] []).2.2 (Or.inl rfl)⟩

/-- C8 (amended): each returned entry's `match_percentage` is the PRE-boost raw
score rounded to 2 decimal places — `find_matches` computes it before
`_apply_boosts` runs and never updates it — while the entry's `score` field
carries the boosted, clamped final score (unrounded; the `/matches` route
rounds that field separately when serializing). -/
theorem C8_reported_scores (now : ℝ) (u : Profile) (pool : List Profile)
    (limit offset : ℕ) (mt : ScoredMatch)
    (hmt : mt ∈ find_matches now u pool limit offset) :
    mt.match_percentage = python_round2 (calculate_compatibility_score u mt.profile) ∧
    mt.score = min 100 (calculate_compatibility_score u mt.profile +
      activity_boost now mt.profile + completion_boost mt.profile +
      verification_boost mt.profile) := by
  unfold find_matches at hmt
  have h1 := List.mem_of_mem_drop hmt
  have h2 := List.mem_of_mem_take h1
  rw [(List.mergeSort_perm _ _).mem_iff] at h2
  simp only [apply_boosts, List.map_map, List.mem_map, Function.comp] at h2
  obtain ⟨p, -, rfl⟩ := h2
  exact ⟨rfl, rfl⟩

/-- C8 witness: the amended claim at the verified-candidate run, whose single
output entry is `⟨candidate_verified, 47, 45⟩`. -/
theorem C8_witness :
    (⟨candidate_verified, (47 : ℝ), (45 : ℝ)⟩ : ScoredMatch).match_percentage =
      python_round2 (calculate_compatibility_score profile_blank
        (⟨candidate_verified, (47 : ℝ), (45 : ℝ)⟩ : ScoredMatch).profile) ∧
    (⟨candidate_verified, (47 : ℝ), (45 : ℝ)⟩ : ScoredMatch).score =
      min 100 (calculate_compatibility_score profile_blank
          (⟨candidate_verified, (47 : ℝ), (45 : ℝ)⟩ : ScoredMatch).profile +
        activity_boost 0 (⟨candidate_verified, (47 : ℝ), (45 : ℝ)⟩ : ScoredMatch).profile +
        completion_boost (⟨candidate_verified, (47 : ℝ), (45 : ℝ)⟩ : ScoredMatch).profile +
        verification_boost (⟨candidate_verified, (47 : ℝ), (45 : ℝ)⟩ : ScoredMatch).profile) :=
  C8_reported_scores 0 profile_blank [candidate_verified] 20 0
    ⟨candidate_verified, (47 : ℝ), (45 : ℝ)⟩
    (by rw [find_matches_blank_verified]; exact List.mem_singleton_self _)

/-- C8 counterexample: in the verified-candidate run the single returned entry
reports `match_percentage` 45 — the raw score rounded — while the boosted,
clamped final score rounded to 2 decimal places is 47. -/
theorem C8_counterexample :
    find_matches 0 profile_blank [candidate_verified] 20 0 =
      [⟨candidate_verified, (47 : ℝ), (45 : ℝ)⟩] ∧
    (45 : ℝ) ≠ python_round2 47 := by
  refine ⟨find_matches_blank_verified, ?_⟩
  rw [python_round2_forty_seven]
  norm_num

/-- C9 (confirmed): the hard filter is monotone in the deal-breaker set —
enlarging it can only shrink the filtered output (pointwise subset, and the
size never grows). -/
theorem C9_deal_breaker_monotone (u : Profile) (pool : List Profile)
    (dbs dbs2 : List String) (hsub : dbs ⊆ dbs2) :
    (∀ p, p ∈ apply_filters { u with deal_breakers := some dbs2 } pool →
      p ∈ apply_filters { u with deal_breakers := some dbs } pool) ∧
    (apply_filters { u with deal_breakers := some dbs2 } pool).length ≤
      (apply_filters { u with deal_breakers := some dbs } pool).length := by
  have hmono : ∀ p, passes_hard_filters { u with deal_breakers := some dbs2 } p →
      passes_hard_filters { u with deal_breakers := some dbs } p := by
    intro p hp
    obtain ⟨h1, h2, h3, h4, h5, h6⟩ := hp
    refine ⟨h1, h2, h3, h4, ?_, h6⟩
    intro hr
    apply h5
    simp only [rejected_by_deal_breakers, truthyL, Option.getD_some] at hr ⊢
    obtain ⟨hne, hdb⟩ := hr
    constructor
    · obtain ⟨x, hx⟩ := List.exists_mem_of_ne_nil dbs hne
      exact List.ne_nil_of_mem (hsub hx)
    · rcases hdb with ⟨hm, hrest⟩ | ⟨hm, hrest⟩ | ⟨hm, hrest⟩
      · exact Or.inl ⟨hsub hm, hrest⟩
      · exact Or.inr (Or.inl ⟨hsub hm, hrest⟩)
      · exact Or.inr (Or.inr ⟨hsub hm, hrest⟩)
  refine ⟨?_, (apply_filters_sublist_mono hmono).length_le⟩
  intro p hp
  rw [mem_apply_filters] at hp ⊢
  exact ⟨hp.1, hmono p hp.2⟩

/-- C9 witness: adding the smoking deal-breaker to an empty set does not grow
the output on a singleton pool. -/
theorem C9_witness :
    (∀ p, p ∈ apply_filters { profile_blank with deal_breakers := some ["smoking"] }
        [candidate_verified] →
      p ∈ apply_filters { profile_blank with deal_breakers := some ([] : List String) }
        [candidate_verified]) ∧
    (apply_filters { profile_blank with deal_breakers := some ["smoking"] }
        [candidate_verified]).length ≤
      (apply_filters { profile_blank with deal_breakers := some ([] : List String) }
        [candidate_verified]).length :=
  C9_deal_breaker_monotone profile_blank [candidate_verified] [] ["smoking"]
    (by simp)

/-- C10 (confirmed): a seeker requiring `same_religion` while having no
religion of their own filters out every candidate: candidates without a
religion fail the presence check, and candidates with one cannot equal the
seeker's absent religion. -/
theorem C10_same_religion_absent (u : Profile) (pool : List Profile)
    (mhs : List String) (h1 : u.must_haves = some mhs)
    (h2 : "same_religion" ∈ mhs) (h3 : u.religion = none) :
    apply_filters u pool = [] := by
  apply apply_filters_eq_nil
  intro p _
  intro hpass
  apply hpass.2.2.2.2.2
  refine ⟨?_, ?_⟩
  · rw [h1]
    simp only [truthyL]
    exact List.ne_nil_of_mem h2
  · rw [h1, Option.getD_some]
    intro hall
    have hrel := hall.1 h2
    rw [h3] at hrel
    rcases hp : p.religion with _ | r
    · rw [hp] at hrel
      simpa [truthyE] using hrel.1
    · rw [hp] at hrel
      simpa using hrel.2

/-- C10 witness: the same-religion must-have with an absent religion empties a
singleton pool. -/
theorem C10_witness :
    apply_filters { profile_blank with must_haves := some ["same_religion"] }
      [candidate_verified] = [] :=
  C10_same_religion_absent _ [candidate_verified] ["same_religion"] rfl
    (by simp) rfl
